import Mathlib

/-!
Verification development for the NanoStream room & signaling coordinator.

The definitions below are a shallow embedding of the room-management module
`claude-4-5/signaling.js` (module-level maps `rooms`, `socketToRoom`,
`messageRateLimits`; functions `createRoom`, `getOrCreateRoom`, `addStreamer`,
`addViewer`, `removeUser`, `addMessage`; and the socket event handlers
`join-room`, `stop-stream`, `offer`, `disconnect`), plus the `offer` handler
of the `server.js` variant (namespace `ServerJs`).  JavaScript `Map` objects
are embedded as association lists with first-match lookup (`JMap`); mutation
is explicit state passing on `ServerState`; `Date.now()` values are passed in
as natural-number `now` arguments; emitted socket events are returned as a
list of `Out` values.
-/

set_option maxRecDepth 8000

/-- Association-list embedding of a JavaScript `Map` (keys unique in any
state built by the operations below). -/
abbrev JMap (α β : Type) := List (α × β)

namespace JMap

/-- `Map.get`: first matching entry, `none` when absent (JS `undefined`). -/
def get [DecidableEq α] : JMap α β → α → Option β
  | [], _ => none
  | (k', v) :: rest, k => if k' = k then some v else get rest k

/-- `Map.set`: overwrite the existing entry in place, else append. -/
def set [DecidableEq α] : JMap α β → α → β → JMap α β
  | [], k, v => [(k, v)]
  | (k', v') :: rest, k, v =>
      if k' = k then (k, v) :: rest else (k', v') :: set rest k v

/-- `Map.delete`: remove the entry for a key (all matches). -/
def erase [DecidableEq α] : JMap α β → α → JMap α β
  | [], _ => []
  | (k', v) :: rest, k =>
      if k' = k then erase rest k else (k', v) :: erase rest k

/-- `Map.size`. -/
def size (m : JMap α β) : Nat := m.length

/-- `Map.has`. -/
def has [DecidableEq α] (m : JMap α β) (k : α) : Bool := (m.get k).isSome

end JMap

-- ===========================================================================
-- Data model (room structure of claude-4-5/signaling.js)
-- ===========================================================================

/-- Configuration constant `MAX_VIEWERS_PER_ROOM`. -/
def MAX_VIEWERS_PER_ROOM : Nat := 20

/-- Configuration constant `MAX_MESSAGES_PER_ROOM`. -/
def MAX_MESSAGES_PER_ROOM : Nat := 100

/-- Configuration constant `MESSAGE_RATE_LIMIT` (ms between messages). -/
def MESSAGE_RATE_LIMIT : Nat := 500

/-- `room.streamer` value: `{ socketId, username, connectedAt }`. -/
structure Streamer where
  socketId : String
  username : String
  connectedAt : Nat
deriving DecidableEq

/-- Entry of `room.viewers`: `{ username, connectedAt }`. -/
structure ViewerInfo where
  username : String
  connectedAt : Nat
deriving DecidableEq

/-- A chat message.  Messages stored by `addMessage` carry an `id` and have
`system = false`; system notices broadcast by the handlers have `id = none`
and `system = true`.  The body is kept as a character list. -/
structure Message where
  username : String
  message : List Char
  timestamp : Nat
  id : Option String
  system : Bool
deriving DecidableEq

/-- `room.stats`. -/
structure Stats where
  totalViewers : Nat
  peakViewers : Nat
  messagesCount : Nat
deriving DecidableEq

/-- A room object. -/
structure Room where
  streamer : Option Streamer
  viewers : JMap String ViewerInfo
  messages : List Message
  createdAt : Nat
  stats : Stats
deriving DecidableEq

/-- The module-level mutable state: `rooms`, `socketToRoom`,
`messageRateLimits`. -/
structure ServerState where
  rooms : JMap String Room
  socketToRoom : JMap String String
  messageRateLimits : JMap String Nat
deriving DecidableEq

/-- The state at module load: all three maps empty. -/
def initialState : ServerState := ⟨[], [], []⟩

-- ===========================================================================
-- Helper functions (translated from the source)
-- ===========================================================================

/-- `createRoom(roomId)`: build a fresh room and register it. -/
def createRoom (st : ServerState) (roomId : String) (now : Nat) :
    Room × ServerState :=
  let room : Room := ⟨none, [], [], now, ⟨0, 0, 0⟩⟩
  (room, { st with rooms := st.rooms.set roomId room })

/-- `getOrCreateRoom(roomId)`. -/
def getOrCreateRoom (st : ServerState) (roomId : String) (now : Nat) :
    Room × ServerState :=
  match st.rooms.get roomId with
  | some room => (room, st)
  | none => createRoom st roomId now

/-- Result object of `addStreamer`. -/
inductive AddStreamerResult where
  | ok (role : String)
  | fail (error : String) (currentStreamer : String)
deriving DecidableEq

/-- `addStreamer(roomId, socketId, username)`. -/
def addStreamer (st : ServerState) (roomId socketId username : String)
    (now : Nat) : ServerState × AddStreamerResult :=
  let (room, st1) := getOrCreateRoom st roomId now
  match room.streamer with
  | some cur =>
      (st1, .fail "Room already has an active streamer" cur.username)
  | none =>
      let room' := { room with streamer := some ⟨socketId, username, now⟩ }
      ({ st1 with
          rooms := st1.rooms.set roomId room',
          socketToRoom := st1.socketToRoom.set socketId roomId },
       .ok "streamer")

/-- Result object of `addViewer` (`waiting` mirrors the `waiting: true` flag
on the no-stream rejection). -/
inductive AddViewerResult where
  | ok (role : String) (viewerCount : Nat)
  | fail (error : String) (waiting : Bool)
deriving DecidableEq

/-- `addViewer(roomId, socketId, username)` with the viewer cap as an
explicit parameter (the source reads the module constant
`MAX_VIEWERS_PER_ROOM`; see `addViewer`). -/
def addViewerWith (maxViewers : Nat) (st : ServerState)
    (roomId socketId username : String) (now : Nat) :
    ServerState × AddViewerResult :=
  let (room, st1) := getOrCreateRoom st roomId now
  match room.streamer with
  | none => (st1, .fail "No active stream in this room" true)
  | some _ =>
      if room.viewers.size ≥ maxViewers then
        (st1, .fail ("Room is full (max " ++ toString maxViewers ++
                     " viewers)") false)
      else
        let viewers' := room.viewers.set socketId ⟨username, now⟩
        let room' := { room with
          viewers := viewers',
          stats := { room.stats with
            totalViewers := room.stats.totalViewers + 1,
            peakViewers := max room.stats.peakViewers viewers'.size } }
        ({ st1 with
            rooms := st1.rooms.set roomId room',
            socketToRoom := st1.socketToRoom.set socketId roomId },
         .ok "viewer" viewers'.size)

/-- `addViewer` as in the source, using `MAX_VIEWERS_PER_ROOM`. -/
def addViewer : ServerState → String → String → String → Nat →
    ServerState × AddViewerResult :=
  addViewerWith MAX_VIEWERS_PER_ROOM

/-- Return value of `removeUser` when non-null. -/
structure RemoveInfo where
  roomId : String
  role : Option String
  username : Option String
  viewerCount : Nat
deriving DecidableEq

/-- Role determination of `removeUser`: the `if`/`else if` chain that
inspects `room.streamer` and `room.viewers`, yielding the role, the
username, and the mutated room. -/
def roleStep (room : Room) (socketId : String) :
    Option String × Option String × Room :=
  match room.streamer with
  | some p =>
      if p.socketId = socketId then
        (some "streamer", some p.username, { room with streamer := none })
      else
        match room.viewers.get socketId with
        | some v =>
            (some "viewer", some v.username,
             { room with viewers := room.viewers.erase socketId })
        | none => (none, none, room)
  | none =>
      match room.viewers.get socketId with
      | some v =>
          (some "viewer", some v.username,
           { room with viewers := room.viewers.erase socketId })
      | none => (none, none, room)

/-- `removeUser(socketId)`: reverse lookup, role determination, unconditional
purge of the reverse-map and rate-limiter entries, then empty-room cleanup. -/
def removeUser (st : ServerState) (socketId : String) :
    ServerState × Option RemoveInfo :=
  match st.socketToRoom.get socketId with
  | none => (st, none)
  | some roomId =>
    match st.rooms.get roomId with
    | none => (st, none)
    | some room =>
      let step := roleStep room socketId
      let role := step.1
      let username := step.2.1
      let room' := step.2.2
      let st1 : ServerState :=
        { st with
            rooms := st.rooms.set roomId room',
            socketToRoom := st.socketToRoom.erase socketId,
            messageRateLimits := st.messageRateLimits.erase socketId }
      let st2 : ServerState :=
        if room'.streamer = none ∧ room'.viewers.size = 0 then
          { st1 with rooms := st1.rooms.erase roomId }
        else st1
      (st2, some ⟨roomId, role, username, room'.viewers.size⟩)

-- ===========================================================================
-- Chat messages
-- ===========================================================================

/-- Whitespace for the purposes of `String.prototype.trim`. -/
def isJsWhitespace (c : Char) : Bool :=
  c = ' ' ∨ c = '\t' ∨ c = '\n' ∨ c = '\r' ∨ c = '\x0b' ∨ c = '\x0c'

/-- `message.trim()`. -/
def trimChars (l : List Char) : List Char :=
  ((l.dropWhile isJsWhitespace).reverse.dropWhile isJsWhitespace).reverse

/-- `.replace(/c/g, r)` for a single-character pattern. -/
def replaceAll (c : Char) (r : List Char) : List Char → List Char
  | [] => []
  | x :: xs => (if x = c then r else [x]) ++ replaceAll c r xs

/-- The sanitizer of `addMessage`:
`message.trim().substring(0, 500).replace(/</g, '&lt;').replace(/>/g, '&gt;')`. -/
def sanitizeMessage (raw : List Char) : List Char :=
  replaceAll '>' [ '&', 'g', 't', ';' ]
    (replaceAll '<' [ '&', 'l', 't', ';' ] ((trimChars raw).take 500))

/-- `room.messages.push(m)` followed by the cap check
(`if messages.length > MAX_MESSAGES_PER_ROOM then messages.shift()`). -/
def pushMessage (msgs : List Message) (m : Message) : List Message :=
  let l := msgs ++ [m]
  if l.length > MAX_MESSAGES_PER_ROOM then l.tail else l

/-- Result object of `addMessage`. -/
inductive AddMessageResult where
  | ok (m : Message)
  | fail (error : String)
deriving DecidableEq

/-- The stored message of a successful `addMessage` result. -/
def AddMessageResult.stored : AddMessageResult → Option Message
  | .ok m => some m
  | .fail _ => none

/-- `addMessage(roomId, socketId, username, message)`. -/
def addMessage (st : ServerState) (roomId socketId username : String)
    (raw : List Char) (now : Nat) : ServerState × AddMessageResult :=
  match st.rooms.get roomId with
  | none => (st, .fail "Room not found")
  | some room =>
    let lastMessageTime := (st.messageRateLimits.get socketId).getD 0
    if now - lastMessageTime < MESSAGE_RATE_LIMIT then
      (st, .fail "Sending messages too quickly")
    else
      let st1 := { st with
        messageRateLimits := st.messageRateLimits.set socketId now }
      let sanitized := sanitizeMessage raw
      if sanitized = [] then
        (st1, .fail "Empty message")
      else
        let msg : Message :=
          ⟨username, sanitized, now, some (socketId ++ "-" ++ toString now),
           false⟩
        let room' := { room with
          messages := pushMessage room.messages msg,
          stats := { room.stats with
            messagesCount := room.stats.messagesCount + 1 } }
        ({ st1 with rooms := st1.rooms.set roomId room' }, .ok msg)

-- ===========================================================================
-- Socket event handlers (emissions modelled as a returned list of `Out`)
-- ===========================================================================

/-- One outbound socket emission of the claude-4-5 signaling module.
`...To target` constructors model `socket.emit`/`io.to(socketId).emit`;
room-wide constructors model `io.to(roomId).emit`. -/
inductive Out where
  | errTo (target : String) (message : String)
  | roleAwaitingTo (target : String) (roomId : String)
  | roleViewerTo (target : String) (roomId : String) (streamerName : String)
      (viewerCount : Nat)
  | chatHistoryTo (target : String) (msgs : List Message)
  | viewerJoinedTo (target : String) (username : String) (viewerCount : Nat)
  | viewerCountUpdate (roomId : String) (count : Nat)
  | chatToRoom (roomId : String) (m : Message)
  | offerTo (target : String) (payload : String) (streamerSocketId : String)
  | streamEndedTo (roomId : String) (message : String)
  | viewerLeftTo (target : String) (username : String) (viewerCount : Nat)
deriving DecidableEq

/-- The `join-room` handler. -/
def onJoinRoom (st : ServerState) (sid roomId username : String)
    (now : Nat) : ServerState × List Out :=
  if roomId = "" ∨ username = "" then
    (st, [.errTo sid "Room ID and username are required"])
  else
    let (room, st1) := getOrCreateRoom st roomId now
    match room.streamer with
    | none => (st1, [.roleAwaitingTo sid roomId])
    | some streamer =>
      match addViewer st1 roomId sid username now with
      | (st2, .ok _ count) =>
          (st2,
           [.roleViewerTo sid roomId streamer.username count,
            .chatHistoryTo sid room.messages,
            .viewerJoinedTo streamer.socketId username count,
            .viewerCountUpdate roomId count,
            .chatToRoom roomId
              ⟨"System", (username ++ " joined the stream").data, now, none,
               true⟩])
      | (st2, .fail e _) => (st2, [.errTo sid e])

/-- The `offer` handler of the claude-4-5 signaling module: it relays the
offer to the target unconditionally, re-wrapped with the sender's id, and
never consults the room state. -/
def onOffer (sid payload targetSocketId : String) : List Out :=
  [.offerTo targetSocketId payload sid]

/-- The `stop-stream` handler. -/
def onStopStream (st : ServerState) (sid roomId : String) :
    ServerState × List Out :=
  match st.rooms.get roomId with
  | none => (st, [])
  | some room =>
    match room.streamer with
    | some p =>
        if p.socketId = sid then
          ({ st with rooms := st.rooms.set roomId { room with streamer := none } },
           [.streamEndedTo roomId "The stream has ended"])
        else (st, [])
    | none => (st, [])

/-- The `disconnect` handler. -/
def onDisconnect (st : ServerState) (sid : String) (now : Nat) :
    ServerState × List Out :=
  match removeUser st sid with
  | (st1, none) => (st1, [])
  | (st1, some info) =>
    if info.role = some "streamer" then
      (st1,
       [.streamEndedTo info.roomId "The streamer has disconnected",
        .chatToRoom info.roomId
          ⟨"System", (info.username.getD "" ++ " (streamer) has left").data,
           now, none, true⟩])
    else if info.role = some "viewer" then
      let notif : List Out :=
        match st1.rooms.get info.roomId with
        | some room =>
          match room.streamer with
          | some p =>
              [.viewerLeftTo p.socketId (info.username.getD "")
                 info.viewerCount]
          | none => []
        | none => []
      (st1,
       notif ++
       [.viewerCountUpdate info.roomId info.viewerCount,
        .chatToRoom info.roomId
          ⟨"System", (info.username.getD "" ++ " left the stream").data, now,
           none, true⟩])
    else (st1, [])

-- ===========================================================================
-- The `offer` handler of the server.js variant
-- ===========================================================================

namespace ServerJs

/-- The `Room` class of server.js, restricted to the field its `offer`
handler reads; `endStream()` sets `streamerSocketId` to null, modelled as
`none`. -/
structure Room where
  streamerSocketId : Option String
deriving DecidableEq

/-- `Room.prototype.isStreamer(socketId)`. -/
def Room.isStreamer (r : Room) (sid : String) : Bool :=
  r.streamerSocketId = some sid

/-- Outbound emissions of the server.js `offer` handler. -/
inductive SOut where
  | errTo (target : String) (message : String)
  | offerTo (target : String) (payload : String) (streamerSocketId : String)
deriving DecidableEq

/-- The server.js `offer` handler: forwards only when the room exists and
the sender is its streamer, otherwise answers the sender with an error. -/
def handleOffer (rooms : JMap String Room) (sid roomId payload target : String) :
    List SOut :=
  match rooms.get roomId with
  | none => [.errTo sid "Only streamer can send offers"]
  | some room =>
      if room.isStreamer sid then
        [.offerTo target payload sid]
      else
        [.errTo sid "Only streamer can send offers"]

end ServerJs

-- ===========================================================================
-- Derived definitions used by the verification
-- ===========================================================================

/-- Whether an `addStreamer` result is a success. -/
def AddStreamerResult.isOk : AddStreamerResult → Bool
  | .ok _ => true
  | .fail _ _ => false

/-- Run a sequence of `addStreamer` claims against one room, collecting the
results. -/
def runClaims (st : ServerState) (roomId : String) :
    List (String × String × Nat) → ServerState × List AddStreamerResult
  | [] => (st, [])
  | (sid, username, now) :: rest =>
      let p := addStreamer st roomId sid username now
      let q := runClaims p.1 roomId rest
      (q.1, p.2 :: q.2)

/-- Number of successful results in a list of `addStreamer` results. -/
def countOk (rs : List AddStreamerResult) : Nat :=
  (rs.filter AddStreamerResult.isOk).length

/-- The room's streamer slot is occupied in a state. -/
def Occupied (st : ServerState) (roomId : String) : Prop :=
  ∃ room p, st.rooms.get roomId = some room ∧ room.streamer = some p

/-- Keep the most recent `MAX_MESSAGES_PER_ROOM` entries of a list. -/
def capDrop (l : List Message) : List Message :=
  l.drop (l.length - MAX_MESSAGES_PER_ROOM)

/-- The body lengths of the chat-history emissions in a handler output. -/
def chatHistoryLengths (outs : List Out) : List Nat :=
  outs.filterMap fun o =>
    match o with
    | .chatHistoryTo _ msgs => some msgs.length
    | _ => none

-- ===========================================================================
-- Concrete scenario states (used by witnesses and counterexamples)
-- ===========================================================================

/-- A state with one room `"r"` whose streamer is socket `"s"` (alice). -/
def stOneRoom : ServerState :=
  (addStreamer initialState "r" "s" "alice" 0).1

/-- `stOneRoom` after viewer `"v"` (bob) joins room `"r"`. -/
def stWithViewer : ServerState :=
  (addViewer stOneRoom "r" "v" "bob" 1).1

/-- `stWithViewer` after the streamer `"s"` stops the stream: the room now
has a null streamer but viewer `"v"` remains. -/
def stStopped : ServerState :=
  (onStopStream stWithViewer "s" "r").1

/-- A state with two rooms `"a"` and `"b"`, each with a streamer. -/
def stTwoRooms : ServerState :=
  (addStreamer (addStreamer initialState "a" "sa" "ann" 0).1
    "b" "sb" "ben" 0).1

/-- `stOneRoom` after 60 accepted chat messages from the streamer, sent
500 ms apart. -/
def stSixtyMessages : ServerState :=
  (List.range 60).foldl
    (fun st i => (addMessage st "r" "s" "alice" [ 'm' ] (1000 + 500 * i)).1)
    stOneRoom

-- ===========================================================================
-- Lemmas about JMap
-- ===========================================================================

theorem JMap.get_set_self [DecidableEq α] (m : JMap α β) (k : α) (v : β) :
    (m.set k v).get k = some v := by
  induction m with
  | nil => simp [set, get]
  | cons p rest ih =>
      obtain ⟨k', v'⟩ := p
      by_cases h : k' = k
      · simp [set, get, h]
      · simp [set, get, h, ih]

theorem JMap.get_set_ne [DecidableEq α] (m : JMap α β) (k k' : α) (v : β)
    (h : k ≠ k') : (m.set k v).get k' = m.get k' := by
  induction m with
  | nil => simp [set, get, h]
  | cons p rest ih =>
      obtain ⟨k₀, v₀⟩ := p
      by_cases h₀ : k₀ = k
      · subst h₀
        simp [set, get, h]
      · simp [set, get, h₀, ih]

theorem JMap.get_erase_self [DecidableEq α] (m : JMap α β) (k : α) :
    (m.erase k).get k = none := by
  induction m with
  | nil => simp [erase, get]
  | cons p rest ih =>
      obtain ⟨k', v⟩ := p
      by_cases h : k' = k
      · simp [erase, h, ih]
      · simp [erase, get, h, ih]

theorem JMap.get_erase_ne [DecidableEq α] (m : JMap α β) (k k' : α)
    (h : k ≠ k') : (m.erase k).get k' = m.get k' := by
  induction m with
  | nil => simp [erase, get]
  | cons p rest ih =>
      obtain ⟨k₀, v⟩ := p
      by_cases h₀ : k₀ = k
      · subst h₀
        simp [erase, get, h, ih]
      · simp [erase, get, h₀, ih]

-- ===========================================================================
-- Core lemmas about addStreamer (claim C2 infrastructure)
-- ===========================================================================

theorem addStreamer_occupied (st : ServerState) (roomId sid username : String)
    (now : Nat) (room : Room) (p : Streamer)
    (hroom : st.rooms.get roomId = some room)
    (hstr : room.streamer = some p) :
    addStreamer st roomId sid username now =
      (st, .fail "Room already has an active streamer" p.username) := by
  simp [addStreamer, getOrCreateRoom, hroom, hstr]

theorem addStreamer_post_occupied (st : ServerState)
    (roomId sid username : String) (now : Nat) :
    Occupied (addStreamer st roomId sid username now).1 roomId := by
  unfold addStreamer getOrCreateRoom createRoom
  cases hroom : st.rooms.get roomId with
  | none =>
      simp only [hroom]
      exact ⟨_, ⟨sid, username, now⟩, JMap.get_set_self _ roomId _, rfl⟩
  | some room =>
      cases hstr : room.streamer with
      | none =>
          simp only [hroom, hstr]
          exact ⟨_, ⟨sid, username, now⟩, JMap.get_set_self _ roomId _, rfl⟩
      | some p =>
          simp only [hroom, hstr]
          exact ⟨room, p, hroom, hstr⟩

theorem countOk_cons (r : AddStreamerResult) (rs : List AddStreamerResult) :
    countOk (r :: rs) = (if r.isOk then 1 else 0) + countOk rs := by
  by_cases h : r.isOk <;>
    simp [countOk, List.filter_cons, h, Nat.add_comm]

theorem runClaims_cons (st : ServerState) (roomId : String)
    (sid username : String) (now : Nat) (rest : List (String × String × Nat)) :
    (runClaims st roomId ((sid, username, now) :: rest)).2 =
      (addStreamer st roomId sid username now).2 ::
      (runClaims (addStreamer st roomId sid username now).1 roomId rest).2 :=
  rfl

theorem runClaims_occupied_countOk (st : ServerState) (roomId : String)
    (cs : List (String × String × Nat)) (h : Occupied st roomId) :
    countOk (runClaims st roomId cs).2 = 0 := by
  induction cs generalizing st with
  | nil => simp [runClaims, countOk]
  | cons c rest ih =>
      obtain ⟨sid, username, now⟩ := c
      obtain ⟨room, p, hroom, hstr⟩ := h
      have hs := addStreamer_occupied st roomId sid username now room p hroom hstr
      rw [runClaims_cons, countOk_cons, hs]
      simp only [AddStreamerResult.isOk, if_neg, Bool.false_eq_true,
        not_false_iff, Nat.zero_add]
      exact ih st ⟨room, p, hroom, hstr⟩

theorem runClaims_countOk_le_one (st : ServerState) (roomId : String)
    (cs : List (String × String × Nat)) :
    countOk (runClaims st roomId cs).2 ≤ 1 := by
  induction cs generalizing st with
  | nil => simp [runClaims, countOk]
  | cons c rest ih =>
      obtain ⟨sid, username, now⟩ := c
      rw [runClaims_cons, countOk_cons]
      cases hres : (addStreamer st roomId sid username now).2 with
      | ok role =>
          have hz := runClaims_occupied_countOk
            (addStreamer st roomId sid username now).1 roomId rest
            (addStreamer_post_occupied st roomId sid username now)
          simp [AddStreamerResult.isOk, hz]
      | fail e n =>
          have h := ih (addStreamer st roomId sid username now).1
          simp only [AddStreamerResult.isOk, if_neg, Bool.false_eq_true,
            not_false_iff, Nat.zero_add]
          exact h

-- ===========================================================================
-- Lemmas about the chat-log bound (claim C9 infrastructure)
-- ===========================================================================

theorem capDrop_cons (x : Message) (t : List Message)
    (h : t.length ≥ MAX_MESSAGES_PER_ROOM) :
    capDrop (x :: t) = capDrop t := by
  unfold capDrop MAX_MESSAGES_PER_ROOM at *
  have h1 : (x :: t).length - 100 = (t.length - 100) + 1 := by
    simp only [List.length_cons]
    omega
  rw [h1, List.drop_succ_cons]

theorem pushMessage_length_le (acc : List Message) (m : Message)
    (h : acc.length ≤ MAX_MESSAGES_PER_ROOM) :
    (pushMessage acc m).length ≤ MAX_MESSAGES_PER_ROOM := by
  unfold pushMessage MAX_MESSAGES_PER_ROOM at *
  by_cases hl : (acc ++ [m]).length > 100
  · simp only [hl, if_pos]
    simp only [List.length_tail, List.length_append, List.length_cons,
      List.length_nil]
    omega
  · simp only [hl, if_neg, not_false_iff]
    simp only [List.length_append, List.length_cons, List.length_nil] at *
    omega

theorem foldl_pushMessage (msgs : List Message) (acc : List Message)
    (h : acc.length ≤ MAX_MESSAGES_PER_ROOM) :
    List.foldl pushMessage acc msgs = capDrop (acc ++ msgs) := by
  induction msgs generalizing acc with
  | nil =>
      unfold capDrop MAX_MESSAGES_PER_ROOM at *
      have : acc.length - 100 = 0 := by omega
      simp [this]
  | cons m ms ih =>
      have hstep : List.foldl pushMessage acc (m :: ms) =
          List.foldl pushMessage (pushMessage acc m) ms := rfl
      rw [hstep, ih (pushMessage acc m) (pushMessage_length_le acc m h)]
      by_cases hfull : acc.length = MAX_MESSAGES_PER_ROOM
      · cases acc with
        | nil => simp [MAX_MESSAGES_PER_ROOM] at hfull
        | cons a acc' =>
            have hfull' : acc'.length + 1 = MAX_MESSAGES_PER_ROOM := by
              simpa using hfull
            have hc : ((a :: acc') ++ [m]).length > MAX_MESSAGES_PER_ROOM := by
              simp only [List.length_append, List.length_cons,
                List.length_nil]
              omega
            have hpush : pushMessage (a :: acc') m = acc' ++ [m] := by
              simp only [pushMessage]
              rw [if_pos hc]
              simp
            rw [hpush]
            have hlen : (acc' ++ m :: ms).length ≥ MAX_MESSAGES_PER_ROOM := by
              simp only [List.length_append, List.length_cons]
              omega
            calc capDrop ((acc' ++ [m]) ++ ms)
                = capDrop (acc' ++ m :: ms) := by
                  rw [List.append_assoc]
                  rfl
              _ = capDrop (a :: (acc' ++ m :: ms)) :=
                  (capDrop_cons a (acc' ++ m :: ms) hlen).symm
              _ = capDrop ((a :: acc') ++ m :: ms) := rfl
      · have hlt : acc.length < MAX_MESSAGES_PER_ROOM := by omega
        have hc : ¬ ((acc ++ [m]).length > MAX_MESSAGES_PER_ROOM) := by
          simp only [List.length_append, List.length_cons, List.length_nil]
          omega
        have hpush : pushMessage acc m = acc ++ [m] := by
          simp only [pushMessage]
          rw [if_neg hc]
        rw [hpush, List.append_assoc]
        rfl

-- ===========================================================================
-- Lemmas about the sanitizer (claim C8 infrastructure)
-- ===========================================================================

theorem replaceAll_append (c : Char) (r a b : List Char) :
    replaceAll c r (a ++ b) = replaceAll c r a ++ replaceAll c r b := by
  induction a with
  | nil => simp [replaceAll]
  | cons x xs ih => simp [replaceAll, ih, List.append_assoc]

theorem escape_length_le (l : List Char) :
    (replaceAll '>' [ '&', 'g', 't', ';' ]
      (replaceAll '<' [ '&', 'l', 't', ';' ] l)).length ≤ 4 * l.length := by
  induction l with
  | nil => simp [replaceAll]
  | cons x xs ih =>
      have hhead : replaceAll '<' [ '&', 'l', 't', ';' ] (x :: xs) =
          (if x = '<' then [ '&', 'l', 't', ';' ] else [x]) ++
          replaceAll '<' [ '&', 'l', 't', ';' ] xs := rfl
      rw [hhead, replaceAll_append, List.length_append, List.length_cons]
      by_cases hx : x = '<'
      · have : replaceAll '>' [ '&', 'g', 't', ';' ]
            [ '&', 'l', 't', ';' ] = [ '&', 'l', 't', ';' ] := rfl
        simp only [hx, if_pos, this, List.length_cons, List.length_nil]
        omega
      · by_cases hy : x = '>'
        · simp only [hx, if_neg, not_false_iff, hy, replaceAll]
          simp only [if_pos, List.append_nil, List.length_append,
            List.length_cons, List.length_nil]
          omega
        · simp only [hx, if_neg, not_false_iff, replaceAll, hy]
          simp only [List.append_nil, List.length_append, List.length_cons,
            List.length_nil]
          omega

theorem sanitizeMessage_length_le (raw : List Char) :
    (sanitizeMessage raw).length ≤ 2000 := by
  unfold sanitizeMessage
  have h1 := escape_length_le ((trimChars raw).take 500)
  have h2 : ((trimChars raw).take 500).length ≤ 500 := by
    rw [List.length_take]
    omega
  omega

-- ===========================================================================
-- Claim C1 — offer relay authorization
-- ===========================================================================

/-- Claim C1 (amended): the claude-4-5 signaling module forwards every
inbound offer unconditionally to its target, re-wrapped with the sender's
id, with no authorization check and no error; only in the server.js variant
is the offer forwarded iff the room exists and the sender is its current
streamer, with an error returned to the sender (and nothing forwarded)
otherwise. -/
theorem c1_offer_relay_amended :
    (∀ sid payload target : String,
      onOffer sid payload target = [Out.offerTo target payload sid]) ∧
    (∀ (rooms : JMap String ServerJs.Room) (sid rid payload target : String),
      (ServerJs.handleOffer rooms sid rid payload target =
          [ServerJs.SOut.offerTo target payload sid] ↔
        ∃ room, rooms.get rid = some room ∧
          room.streamerSocketId = some sid) ∧
      ((∀ room, rooms.get rid = some room →
          room.streamerSocketId ≠ some sid) →
        ServerJs.handleOffer rooms sid rid payload target =
          [ServerJs.SOut.errTo sid "Only streamer can send offers"])) := by
  refine ⟨fun sid payload target => rfl, ?_⟩
  intro rooms sid rid payload target
  cases hget : rooms.get rid with
  | none =>
      refine ⟨⟨fun h => ?_, ?_⟩, fun _ => ?_⟩
      · simp [ServerJs.handleOffer, hget] at h
      · rintro ⟨room, hr, _⟩
        exact absurd hr (by simp)
      · simp [ServerJs.handleOffer, hget]
  | some room =>
      by_cases hstr : room.streamerSocketId = some sid
      · refine ⟨⟨fun _ => ⟨room, rfl, hstr⟩, fun _ => ?_⟩, fun hno => ?_⟩
        · simp [ServerJs.handleOffer, hget, ServerJs.Room.isStreamer, hstr]
        · exact absurd hstr (hno room rfl)
      · refine ⟨⟨fun h => ?_, ?_⟩, fun _ => ?_⟩
        · simp [ServerJs.handleOffer, hget, ServerJs.Room.isStreamer,
            hstr] at h
        · rintro ⟨room', hr, hs⟩
          injection hr with hr
          subst hr
          exact absurd hs hstr
        · simp [ServerJs.handleOffer, hget, ServerJs.Room.isStreamer, hstr]

/-- Witness for C1's amended theorem at a concrete input: in the server.js
variant the streamer's own offer is forwarded. -/
theorem c1_offer_relay_amended_witness :
    ServerJs.handleOffer [("r", ⟨some "s"⟩)] "s" "r" "sdp" "v" =
      [ServerJs.SOut.offerTo "v" "sdp" "s"] :=
  (c1_offer_relay_amended.2 [("r", ⟨some "s"⟩)] "s" "r" "sdp" "v").1.mpr
    ⟨⟨some "s"⟩, rfl, rfl⟩

/-- Counterexample to claim C1 as stated: in the claude-4-5 signaling module
the room `"r"` has streamer `"s"`, yet an offer sent by the non-streamer
`"v"` is still forwarded to its target (no `Unauthorized` result, nothing
withheld). -/
theorem c1_offer_unchecked_cex :
    ((stOneRoom.rooms.get "r").map Room.streamer =
      some (some ⟨"s", "alice", 0⟩)) ∧
    onOffer "v" "sdp-payload" "t" =
      [Out.offerTo "t" "sdp-payload" "v"] := by
  exact ⟨rfl, rfl⟩

-- ===========================================================================
-- Claim C2 — at most one streamer
-- ===========================================================================

/-- Claim C2 (confirmed): while a room's streamer slot is occupied, every
further `addStreamer` claim is rejected with the conflict error
`"Room already has an active streamer"` carrying the current streamer's
display name, and any sequence of claims on one room has at most one
success. -/
theorem c2_at_most_one_streamer :
    (∀ (st : ServerState) (roomId sid username : String) (now : Nat)
        (room : Room) (p : Streamer),
      st.rooms.get roomId = some room → room.streamer = some p →
      addStreamer st roomId sid username now =
        (st, .fail "Room already has an active streamer" p.username)) ∧
    (∀ (st : ServerState) (roomId : String)
        (cs : List (String × String × Nat)),
      countOk (runClaims st roomId cs).2 ≤ 1) :=
  ⟨addStreamer_occupied, runClaims_countOk_le_one⟩

/-- Witness for C2 at a concrete input: with alice streaming in room `"r"`,
bob's claim is rejected with the conflict naming alice. -/
theorem c2_at_most_one_streamer_witness :
    addStreamer stOneRoom "r" "v" "bob" 5 =
      (stOneRoom, .fail "Room already has an active streamer" "alice") :=
  c2_at_most_one_streamer.1 stOneRoom "r" "v" "bob" 5
    ⟨some ⟨"s", "alice", 0⟩, [], [], 0, ⟨0, 0, 0⟩⟩ ⟨"s", "alice", 0⟩ rfl rfl


-- ===========================================================================
-- Lemmas about removeUser and onStopStream (claims C3, C5 infrastructure)
-- ===========================================================================

theorem onStopStream_streamer (st : ServerState) (sid roomId : String)
    (room : Room) (p : Streamer) (hroom : st.rooms.get roomId = some room)
    (hstr : room.streamer = some p) (hps : p.socketId = sid) :
    onStopStream st sid roomId =
      ({ st with
          rooms := st.rooms.set roomId { room with streamer := none } },
       [.streamEndedTo roomId "The stream has ended"]) := by
  simp [onStopStream, hroom, hstr, hps]

theorem removeUser_eq (st : ServerState) (sid roomId : String) (room : Room)
    (hmap : st.socketToRoom.get sid = some roomId)
    (hroom : st.rooms.get roomId = some room) :
    removeUser st sid =
      (if (roleStep room sid).2.2.streamer = none ∧
          (roleStep room sid).2.2.viewers.size = 0 then
         { st with
             rooms := (st.rooms.set roomId (roleStep room sid).2.2).erase
               roomId,
             socketToRoom := st.socketToRoom.erase sid,
             messageRateLimits := st.messageRateLimits.erase sid }
       else
         { st with
             rooms := st.rooms.set roomId (roleStep room sid).2.2,
             socketToRoom := st.socketToRoom.erase sid,
             messageRateLimits := st.messageRateLimits.erase sid },
       some ⟨roomId, (roleStep room sid).1, (roleStep room sid).2.1,
             (roleStep room sid).2.2.viewers.size⟩) := by
  simp only [removeUser, hmap, hroom]

theorem removeUser_socketToRoom (st : ServerState) (sid roomId : String)
    (room : Room) (hmap : st.socketToRoom.get sid = some roomId)
    (hroom : st.rooms.get roomId = some room) :
    (removeUser st sid).1.socketToRoom = st.socketToRoom.erase sid := by
  rw [removeUser_eq st sid roomId room hmap hroom]
  rw [apply_ite ServerState.socketToRoom]
  simp

theorem removeUser_gc (st : ServerState) (sid roomId : String)
    (hmap : st.socketToRoom.get sid = some roomId) :
    ∀ room', (removeUser st sid).1.rooms.get roomId = some room' →
      ¬(room'.streamer = none ∧ room'.viewers.size = 0) := by
  intro room' hafter
  cases hroom : st.rooms.get roomId with
  | none =>
      have hnop : removeUser st sid = (st, none) := by
        simp [removeUser, hmap, hroom]
      rw [hnop] at hafter
      rw [hroom] at hafter
      exact absurd hafter (by simp)
  | some room =>
      have hrooms : (removeUser st sid).1.rooms =
          (if (roleStep room sid).2.2.streamer = none ∧
              (roleStep room sid).2.2.viewers.size = 0 then
            (st.rooms.set roomId (roleStep room sid).2.2).erase roomId
          else st.rooms.set roomId (roleStep room sid).2.2) := by
        rw [removeUser_eq st sid roomId room hmap hroom]
        by_cases hempty : (roleStep room sid).2.2.streamer = none ∧
            (roleStep room sid).2.2.viewers.size = 0
        · rw [if_pos hempty, if_pos hempty]
        · rw [if_neg hempty, if_neg hempty]
      rw [hrooms] at hafter
      by_cases hempty : (roleStep room sid).2.2.streamer = none ∧
          (roleStep room sid).2.2.viewers.size = 0
      · rw [if_pos hempty, JMap.get_erase_self] at hafter
        exact absurd hafter (by simp)
      · rw [if_neg hempty, JMap.get_set_self] at hafter
        injection hafter with hafter
        subst hafter
        exact hempty

-- ===========================================================================
-- Claim C3 — empty-room garbage collection
-- ===========================================================================

/-- Claim C3 (amended): disconnect cleanup (`removeUser`) deletes the
affected room the instant it is empty — any room still registered under the
socket's room id afterwards has a streamer or viewers — but the explicit
`stop-stream` handler only clears the streamer slot and never deletes the
room, so a room emptied by stop-stream stays registered. -/
theorem c3_room_gc_amended :
    (∀ (st : ServerState) (sid roomId : String),
      st.socketToRoom.get sid = some roomId →
      ∀ room', (removeUser st sid).1.rooms.get roomId = some room' →
        ¬(room'.streamer = none ∧ room'.viewers.size = 0)) ∧
    (∀ (st : ServerState) (sid roomId : String) (room : Room) (p : Streamer),
      st.rooms.get roomId = some room → room.streamer = some p →
      p.socketId = sid →
      (onStopStream st sid roomId).1.rooms.get roomId =
        some { room with streamer := none }) := by
  constructor
  · exact fun st sid roomId hmap => removeUser_gc st sid roomId hmap
  · intro st sid roomId room p hroom hstr hps
    rw [onStopStream_streamer st sid roomId room p hroom hstr hps]
    exact JMap.get_set_self st.rooms roomId _

/-- Witness for C3's amended theorem at concrete inputs: viewer bob leaves
the live room `"r"` — the surviving room is certified non-empty by the
first conjunct — and the stop-stream of alice leaves the room registered
with a cleared slot per the second conjunct. -/
theorem c3_room_gc_amended_witness :
    ¬((some ⟨"s", "alice", 0⟩ : Option Streamer) = none ∧
      JMap.size ([] : JMap String ViewerInfo) = 0) ∧
    (onStopStream stWithViewer "s" "r").1.rooms.get "r" =
      some ⟨none, [("v", ⟨"bob", 1⟩)], [], 0, ⟨1, 1, 0⟩⟩ :=
  ⟨c3_room_gc_amended.1 stWithViewer "v" "r" rfl
      ⟨some ⟨"s", "alice", 0⟩, [], [], 0, ⟨1, 1, 0⟩⟩ rfl,
   c3_room_gc_amended.2 stWithViewer "s" "r"
      ⟨some ⟨"s", "alice", 0⟩, [("v", ⟨"bob", 1⟩)], [], 0, ⟨1, 1, 0⟩⟩
      ⟨"s", "alice", 0⟩ rfl rfl rfl⟩

/-- Counterexample to claim C3 as stated: the streamer of room `"r"` stops
the stream while no viewers are present; the mutation leaves the room both
empty (`streamer = none`, no viewers) and still registered. -/
theorem c3_stop_leaves_empty_room_cex :
    ((onStopStream stOneRoom "s" "r").1.rooms.get "r").map
      (fun room => (room.streamer, room.viewers.size)) = some (none, 0) := by
  decide

-- ===========================================================================
-- Claim C4 — streamer claim does not evict the viewer slot
-- ===========================================================================

/-- Claim C4 (amended): a successful `addStreamer` sets the streamer slot
and the reverse-map entry but leaves the room's viewer set (and everything
else) unchanged; it performs no eviction, so a former viewer claiming the
vacated slot stays in `viewers` and the streamer/viewer disjointness
invariant does not hold. -/
theorem c4_no_eviction_amended (st : ServerState)
    (roomId sid username : String) (now : Nat) (room : Room)
    (hroom : st.rooms.get roomId = some room)
    (hstr : room.streamer = none) :
    addStreamer st roomId sid username now =
      ({ st with
          rooms := st.rooms.set roomId
            { room with streamer := some ⟨sid, username, now⟩ },
          socketToRoom := st.socketToRoom.set sid roomId },
       .ok "streamer") := by
  simp [addStreamer, getOrCreateRoom, hroom, hstr]

/-- Witness for C4's amended theorem at a concrete input: viewer `"v"`
claims the stopped room `"r"` and the viewer map containing `"v"` is kept
verbatim in the new state. -/
theorem c4_no_eviction_amended_witness :
    addStreamer stStopped "r" "v" "bob" 2 =
      ({ stStopped with
          rooms := stStopped.rooms.set "r"
            { streamer := some ⟨"v", "bob", 2⟩,
              viewers := [("v", ⟨"bob", 1⟩)], messages := [], createdAt := 0,
              stats := ⟨1, 1, 0⟩ },
          socketToRoom := stStopped.socketToRoom.set "v" "r" },
       .ok "streamer") :=
  c4_no_eviction_amended stStopped "r" "v" "bob" 2
    ⟨none, [("v", ⟨"bob", 1⟩)], [], 0, ⟨1, 1, 0⟩⟩ rfl rfl

/-- Counterexample to claim C4 as stated: after alice streams, bob joins as
viewer and alice stops, bob successfully claims the streamer slot of room
`"r"` while still being present in its viewer set — no eviction happens and
the same connection id holds both roles. -/
theorem c4_viewer_not_evicted_cex :
    (addStreamer stStopped "r" "v" "bob" 2).2 = .ok "streamer" ∧
    (((addStreamer stStopped "r" "v" "bob" 2).1.rooms.get "r").map
      (fun room =>
        (room.streamer.map Streamer.socketId, room.viewers.has "v"))) =
      some (some "v", true) := by
  exact ⟨rfl, rfl⟩

-- ===========================================================================
-- Claim C5 — reverse-map membership
-- ===========================================================================

/-- Claim C5 (amended): `addStreamer`/`addViewer` insert the reverse-map
entry and disconnect cleanup (`removeUser`) erases it whenever the mapped
room exists, but the `stop-stream` handler leaves the whole reverse map
untouched: a former streamer keeps its reverse-map entry (while being
neither streamer nor viewer) until it disconnects, so the claimed
iff-invariant does not hold after stop-stream. -/
theorem c5_reverse_map_amended :
    (∀ (st : ServerState) (sid roomId : String) (room : Room) (p : Streamer),
      st.rooms.get roomId = some room → room.streamer = some p →
      p.socketId = sid →
      (onStopStream st sid roomId).1.socketToRoom = st.socketToRoom) ∧
    (∀ (st : ServerState) (sid roomId : String) (room : Room),
      st.socketToRoom.get sid = some roomId →
      st.rooms.get roomId = some room →
      (removeUser st sid).1.socketToRoom.get sid = none) := by
  constructor
  · intro st sid roomId room p hroom hstr hps
    rw [onStopStream_streamer st sid roomId room p hroom hstr hps]
  · intro st sid roomId room hmap hroom
    rw [removeUser_socketToRoom st sid roomId room hmap hroom,
      JMap.get_erase_self]

/-- Witness for C5's amended theorem at a concrete input: stopping the
stream leaves the reverse map unchanged, and bob's disconnect erases his
entry. -/
theorem c5_reverse_map_amended_witness :
    (onStopStream stWithViewer "s" "r").1.socketToRoom =
      stWithViewer.socketToRoom ∧
    (removeUser stStopped "v").1.socketToRoom.get "v" = none :=
  ⟨c5_reverse_map_amended.1 stWithViewer "s" "r"
      ⟨some ⟨"s", "alice", 0⟩, [("v", ⟨"bob", 1⟩)], [], 0, ⟨1, 1, 0⟩⟩
      ⟨"s", "alice", 0⟩ rfl rfl rfl,
   c5_reverse_map_amended.2 stStopped "v" "r"
      ⟨none, [("v", ⟨"bob", 1⟩)], [], 0, ⟨1, 1, 0⟩⟩ rfl rfl⟩

/-- Counterexample to claim C5 as stated: after `stop-stream`, socket `"s"`
still has a reverse-map entry for room `"r"` although it is neither the
streamer (the slot is null) nor a viewer of that room. -/
theorem c5_stale_reverse_entry_cex :
    (onStopStream stOneRoom "s" "r").1.socketToRoom.get "s" = some "r" ∧
    ((onStopStream stOneRoom "s" "r").1.rooms.get "r").map
      (fun room => (room.streamer, room.viewers.has "s")) =
      some (none, false) := by
  exact ⟨rfl, rfl⟩

-- ===========================================================================
-- Claim C6 — admitViewer
-- ===========================================================================

theorem JMap.size_set_of_get_none [DecidableEq α] (m : JMap α β) (k : α)
    (v : β) : m.get k = none → (m.set k v).size = m.size + 1 := by
  induction m with
  | nil => intro _; simp [set, size]
  | cons p rest ih =>
      intro h
      obtain ⟨k₀, v₀⟩ := p
      by_cases h₀ : k₀ = k
      · simp [get, h₀] at h
      · simp only [get, h₀, if_false] at h
        have hr := ih h
        simp only [set, h₀, if_false, size, List.length_cons] at hr ⊢
        omega

/-- Claim C6 (confirmed): `addViewer` rejects with
`"No active stream in this room"` when the room has no streamer and with
`"Room is full (max 20 viewers)"` when the viewer set has reached the cap;
on acceptance it inserts the viewer, bumps `totalViewers`, sets
`peakViewers` to the max of the old peak and the new size, and returns the
new viewer count; and with the cap at 2, three admissions of distinct
connections give exactly two acceptances and one room-full rejection. -/
theorem c6_admit_viewer :
    (∀ (st : ServerState) (roomId sid username : String) (now : Nat)
        (room : Room),
      st.rooms.get roomId = some room → room.streamer = none →
      addViewer st roomId sid username now =
        (st, .fail "No active stream in this room" true)) ∧
    (∀ (st : ServerState) (roomId sid username : String) (now : Nat)
        (room : Room) (p : Streamer),
      st.rooms.get roomId = some room → room.streamer = some p →
      room.viewers.size ≥ MAX_VIEWERS_PER_ROOM →
      addViewer st roomId sid username now =
        (st, .fail "Room is full (max 20 viewers)" false)) ∧
    (∀ (st : ServerState) (roomId sid username : String) (now : Nat)
        (room : Room) (p : Streamer),
      st.rooms.get roomId = some room → room.streamer = some p →
      room.viewers.size < MAX_VIEWERS_PER_ROOM →
      room.viewers.get sid = none →
      addViewer st roomId sid username now =
        ({ st with
            rooms := st.rooms.set roomId
              { room with
                  viewers := room.viewers.set sid ⟨username, now⟩,
                  stats := { room.stats with
                    totalViewers := room.stats.totalViewers + 1,
                    peakViewers := max room.stats.peakViewers
                      (room.viewers.size + 1) } },
            socketToRoom := st.socketToRoom.set sid roomId },
         .ok "viewer" (room.viewers.size + 1))) ∧
    ((addViewerWith 2 stOneRoom "r" "c1" "u1" 1).2 = .ok "viewer" 1 ∧
     (addViewerWith 2 (addViewerWith 2 stOneRoom "r" "c1" "u1" 1).1
        "r" "c2" "u2" 2).2 = .ok "viewer" 2 ∧
     (addViewerWith 2 (addViewerWith 2
        (addViewerWith 2 stOneRoom "r" "c1" "u1" 1).1
        "r" "c2" "u2" 2).1 "r" "c3" "u3" 3).2 =
       .fail "Room is full (max 2 viewers)" false) := by
  refine ⟨?_, ?_, ?_, by decide⟩
  · intro st roomId sid username now room hroom hstr
    simp [addViewer, addViewerWith, getOrCreateRoom, hroom, hstr]
  · intro st roomId sid username now room p hroom hstr hge
    simp [addViewer, addViewerWith, getOrCreateRoom, hroom, hstr, hge]
    decide
  · intro st roomId sid username now room p hroom hstr hlt hnone
    have hnot : ¬(room.viewers.size ≥ MAX_VIEWERS_PER_ROOM) :=
      Nat.not_le.mpr hlt
    have hsz := JMap.size_set_of_get_none room.viewers sid
      ⟨username, now⟩ hnone
    simp [addViewer, addViewerWith, getOrCreateRoom, hroom, hstr, hnot, hsz]

/-- Witness for C6 at a concrete input: with alice streaming and no viewers
in room `"r"`, bob is admitted as the first viewer. -/
theorem c6_admit_viewer_witness :
    addViewer stOneRoom "r" "v" "bob" 1 =
      ({ stOneRoom with
          rooms := stOneRoom.rooms.set "r"
            { streamer := some ⟨"s", "alice", 0⟩,
              viewers := [("v", ⟨"bob", 1⟩)], messages := [], createdAt := 0,
              stats := ⟨1, 1, 0⟩ },
          socketToRoom := stOneRoom.socketToRoom.set "v" "r" },
       .ok "viewer" 1) :=
  c6_admit_viewer.2.2.1 stOneRoom "r" "v" "bob" 1
    ⟨some ⟨"s", "alice", 0⟩, [], [], 0, ⟨0, 0, 0⟩⟩ ⟨"s", "alice", 0⟩
    rfl rfl (by decide) rfl

-- ===========================================================================
-- Claims C7 and C8 — chat append: rate limiting and sanitization
-- ===========================================================================

theorem addMessage_eq (st : ServerState) (roomId sid username : String)
    (raw : List Char) (now : Nat) (room : Room)
    (hroom : st.rooms.get roomId = some room) :
    addMessage st roomId sid username raw now =
      if now - (st.messageRateLimits.get sid).getD 0 < MESSAGE_RATE_LIMIT then
        (st, .fail "Sending messages too quickly")
      else if sanitizeMessage raw = [] then
        ({ st with messageRateLimits := st.messageRateLimits.set sid now },
         .fail "Empty message")
      else
        ({ st with
            rooms := st.rooms.set roomId
              { room with
                  messages := pushMessage room.messages
                    ⟨username, sanitizeMessage raw, now,
                     some (sid ++ "-" ++ toString now), false⟩,
                  stats := { room.stats with
                    messagesCount := room.stats.messagesCount + 1 } },
            messageRateLimits := st.messageRateLimits.set sid now },
         .ok ⟨username, sanitizeMessage raw, now,
              some (sid ++ "-" ++ toString now), false⟩) := by
  simp only [addMessage, hroom]

/-- Claim C7 (amended): a chat append to an existing room is rejected with
`"Sending messages too quickly"` exactly when fewer than 500 ms have passed
since the connection's stored rate-limit timestamp — a timestamp that is
refreshed by every attempt passing the rate check, including attempts later
rejected as empty, so it is not always the time of the last accepted
message; the timestamp is keyed by connection id alone (not per room), so
an accepted message in one room throttles the same connection in another;
and two appends within 500 ms give one acceptance and one rejection while a
third 500 ms later succeeds. -/
theorem c7_rate_limit_amended :
    (∀ (st : ServerState) (roomId sid username : String) (raw : List Char)
        (now : Nat) (room : Room),
      st.rooms.get roomId = some room →
      ((addMessage st roomId sid username raw now).2 =
          .fail "Sending messages too quickly" ↔
        now - (st.messageRateLimits.get sid).getD 0 < MESSAGE_RATE_LIMIT)) ∧
    (∀ (st : ServerState) (roomId sid username : String) (raw : List Char)
        (now : Nat) (room : Room),
      st.rooms.get roomId = some room →
      ¬(now - (st.messageRateLimits.get sid).getD 0 < MESSAGE_RATE_LIMIT) →
      (addMessage st roomId sid username raw now).1.messageRateLimits.get
        sid = some now) ∧
    ((addMessage stTwoRooms "a" "v" "bob" [ 'h', 'i' ] 1000).2 =
        .ok ⟨"bob", [ 'h', 'i' ], 1000, some "v-1000", false⟩ ∧
     (addMessage (addMessage stTwoRooms "a" "v" "bob" [ 'h', 'i' ] 1000).1
        "b" "v" "bob" [ 'y', 'o' ] 1300).2 =
       .fail "Sending messages too quickly") ∧
    ((addMessage stOneRoom "r" "v" "bob" [ 'h', 'i' ] 1000).2 =
        .ok ⟨"bob", [ 'h', 'i' ], 1000, some "v-1000", false⟩ ∧
     (addMessage (addMessage stOneRoom "r" "v" "bob" [ 'h', 'i' ] 1000).1
        "r" "v" "bob" [ 'y', 'o' ] 1300).2 =
       .fail "Sending messages too quickly" ∧
     (addMessage (addMessage
        (addMessage stOneRoom "r" "v" "bob" [ 'h', 'i' ] 1000).1
        "r" "v" "bob" [ 'y', 'o' ] 1300).1
        "r" "v" "bob" [ 's', 'u', 'p' ] 1600).2 =
       .ok ⟨"bob", [ 's', 'u', 'p' ], 1600, some "v-1600", false⟩) := by
  refine ⟨?_, ?_, by decide, by decide⟩
  · intro st roomId sid username raw now room hroom
    rw [addMessage_eq st roomId sid username raw now room hroom]
    by_cases hc : now - (st.messageRateLimits.get sid).getD 0 <
        MESSAGE_RATE_LIMIT
    · rw [if_pos hc]
      simp [hc]
    · rw [if_neg hc]
      by_cases hs : sanitizeMessage raw = []
      · rw [if_pos hs]
        refine ⟨fun h => ?_, fun h => absurd h hc⟩
        simp at h
      · rw [if_neg hs]
        refine ⟨fun h => ?_, fun h => absurd h hc⟩
        simp at h
  · intro st roomId sid username raw now room hroom hc
    rw [addMessage_eq st roomId sid username raw now room hroom, if_neg hc]
    by_cases hs : sanitizeMessage raw = []
    · rw [if_pos hs]
      exact JMap.get_set_self st.messageRateLimits sid now
    · rw [if_neg hs]
      exact JMap.get_set_self st.messageRateLimits sid now

/-- Witness for C7's amended theorem at a concrete input: with a fresh
rate-limit map, bob's append at time 1000 is not a rate rejection, and the
stored token becomes 1000. -/
theorem c7_rate_limit_amended_witness :
    ¬((addMessage stOneRoom "r" "v" "bob" [ 'h', 'i' ] 1000).2 =
        .fail "Sending messages too quickly") ∧
    JMap.get ((addMessage stOneRoom "r" "v" "bob" [ 'h', 'i' ] 1000).1
      ).messageRateLimits "v" = some 1000 :=
  ⟨fun h =>
    absurd ((c7_rate_limit_amended.1 stOneRoom "r" "v" "bob" [ 'h', 'i' ]
      1000 ⟨some ⟨"s", "alice", 0⟩, [], [], 0, ⟨0, 0, 0⟩⟩ rfl).mp h)
      (by decide),
   c7_rate_limit_amended.2.1 stOneRoom "r" "v" "bob" [ 'h', 'i' ] 1000
     ⟨some ⟨"s", "alice", 0⟩, [], [], 0, ⟨0, 0, 0⟩⟩ rfl (by decide)⟩

/-- Counterexample to claim C7 as stated: bob's whitespace-only message at
time 1000 is rejected as empty (never accepted) yet refreshes the rate
token, so his first real message at time 1300 is rejected with
`"Sending messages too quickly"` although no message of his was ever
accepted — the room's log is still empty. -/
theorem c7_rejects_without_accepted_cex :
    (addMessage stOneRoom "r" "v" "bob" [ ' ' ] 1000).2 =
      .fail "Empty message" ∧
    (addMessage (addMessage stOneRoom "r" "v" "bob" [ ' ' ] 1000).1
       "r" "v" "bob" [ 'h', 'i' ] 1300).2 =
      .fail "Sending messages too quickly" ∧
    ((addMessage (addMessage stOneRoom "r" "v" "bob" [ ' ' ] 1000).1
        "r" "v" "bob" [ 'h', 'i' ] 1300).1.rooms.get "r").map Room.messages =
      some [] := by
  exact ⟨by decide, by decide, by decide⟩

/-- Claim C8 (amended): an accepted chat append stores the raw input
trimmed, truncated to 500 characters, and only then `<`/`>`-escaped — so
escaping can expand the stored body beyond 500 characters, up to the proved
bound of 2000; an input whose sanitized form is empty is rejected with
`"Empty message"` and the room's log is left untouched (only the rate token
is refreshed). -/
theorem c8_sanitize_amended :
    (∀ raw : List Char, (sanitizeMessage raw).length ≤ 2000) ∧
    (∀ (st : ServerState) (roomId sid username : String) (raw : List Char)
        (now : Nat) (room : Room) (st' : ServerState) (m : Message),
      st.rooms.get roomId = some room →
      addMessage st roomId sid username raw now = (st', .ok m) →
      m.message = sanitizeMessage raw ∧ m.message.length ≤ 2000) ∧
    (∀ (st : ServerState) (roomId sid username : String) (raw : List Char)
        (now : Nat) (room : Room),
      st.rooms.get roomId = some room →
      ¬(now - (st.messageRateLimits.get sid).getD 0 < MESSAGE_RATE_LIMIT) →
      sanitizeMessage raw = [] →
      addMessage st roomId sid username raw now =
        ({ st with messageRateLimits := st.messageRateLimits.set sid now },
         .fail "Empty message")) := by
  refine ⟨sanitizeMessage_length_le, ?_, ?_⟩
  · intro st roomId sid username raw now room st' m hroom hrun
    rw [addMessage_eq st roomId sid username raw now room hroom] at hrun
    by_cases hc : now - (st.messageRateLimits.get sid).getD 0 <
        MESSAGE_RATE_LIMIT
    · rw [if_pos hc] at hrun
      have h2 := congrArg Prod.snd hrun
      simp at h2
    · rw [if_neg hc] at hrun
      by_cases hs : sanitizeMessage raw = []
      · rw [if_pos hs] at hrun
        have h2 := congrArg Prod.snd hrun
        simp at h2
      · rw [if_neg hs] at hrun
        have h2 := congrArg Prod.snd hrun
        simp only [Prod.snd, AddMessageResult.ok.injEq] at h2
        rw [← h2]
        exact ⟨rfl, sanitizeMessage_length_le raw⟩
  · intro st roomId sid username raw now room hroom hc hs
    rw [addMessage_eq st roomId sid username raw now room hroom, if_neg hc,
      if_pos hs]

/-- Witness for C8's amended theorem at a concrete input: bob's accepted
`"hi"` message stores exactly the sanitized body, and his whitespace-only
message is rejected as empty with the log untouched. -/
theorem c8_sanitize_amended_witness :
    ((⟨"bob", [ 'h', 'i' ], 1000, some "v-1000", false⟩ : Message).message =
        sanitizeMessage [ 'h', 'i' ] ∧
      (⟨"bob", [ 'h', 'i' ], 1000, some "v-1000",
        false⟩ : Message).message.length ≤ 2000) ∧
    addMessage stOneRoom "r" "v" "bob" [ ' ' ] 1000 =
      ({ stOneRoom with
          messageRateLimits := stOneRoom.messageRateLimits.set "v" 1000 },
       .fail "Empty message") :=
  ⟨c8_sanitize_amended.2.1 stOneRoom "r" "v" "bob" [ 'h', 'i' ] 1000
      ⟨some ⟨"s", "alice", 0⟩, [], [], 0, ⟨0, 0, 0⟩⟩
      (addMessage stOneRoom "r" "v" "bob" [ 'h', 'i' ] 1000).1
      ⟨"bob", [ 'h', 'i' ], 1000, some "v-1000", false⟩ rfl (by decide),
   c8_sanitize_amended.2.2 stOneRoom "r" "v" "bob" [ ' ' ] 1000
      ⟨some ⟨"s", "alice", 0⟩, [], [], 0, ⟨0, 0, 0⟩⟩ rfl (by decide)
      (by decide)⟩

/-- Counterexample to claim C8 as stated: a message of 126 `<` characters
is accepted and stored with a 504-character body — the escape step runs
after the 500-character truncation, so the stored body exceeds 500. -/
theorem c8_stored_exceeds_500_cex :
    ((addMessage stOneRoom "r" "v" "bob" (List.replicate 126 '<')
        1000).2.stored.map (fun m => m.message.length)) = some 504 ∧
    500 < 504 := by
  exact ⟨by decide, by decide⟩

-- ===========================================================================
-- Claim C9 — chat-log bound and delivered history
-- ===========================================================================

theorem addViewer_ok (st : ServerState) (roomId sid username : String)
    (now : Nat) (room : Room) (p : Streamer)
    (hroom : st.rooms.get roomId = some room)
    (hstr : room.streamer = some p)
    (hlt : room.viewers.size < MAX_VIEWERS_PER_ROOM) :
    addViewer st roomId sid username now =
      ({ st with
          rooms := st.rooms.set roomId
            { room with
                viewers := room.viewers.set sid ⟨username, now⟩,
                stats := { room.stats with
                  totalViewers := room.stats.totalViewers + 1,
                  peakViewers := max room.stats.peakViewers
                    (room.viewers.set sid ⟨username, now⟩).size } },
          socketToRoom := st.socketToRoom.set sid roomId },
       .ok "viewer" (room.viewers.set sid ⟨username, now⟩).size) := by
  have hnot : ¬(room.viewers.size ≥ MAX_VIEWERS_PER_ROOM) :=
    Nat.not_le.mpr hlt
  simp [addViewer, addViewerWith, getOrCreateRoom, hroom, hstr, hnot]

theorem onJoinRoom_viewer (st : ServerState) (sid roomId username : String)
    (now : Nat) (room : Room) (p : Streamer)
    (hrid : roomId ≠ "") (hun : username ≠ "")
    (hroom : st.rooms.get roomId = some room)
    (hstr : room.streamer = some p)
    (hlt : room.viewers.size < MAX_VIEWERS_PER_ROOM) :
    onJoinRoom st sid roomId username now =
      ((addViewer st roomId sid username now).1,
       [.roleViewerTo sid roomId p.username
          (room.viewers.set sid ⟨username, now⟩).size,
        .chatHistoryTo sid room.messages,
        .viewerJoinedTo p.socketId username
          (room.viewers.set sid ⟨username, now⟩).size,
        .viewerCountUpdate roomId
          (room.viewers.set sid ⟨username, now⟩).size,
        .chatToRoom roomId
          ⟨"System", (username ++ " joined the stream").data, now, none,
           true⟩]) := by
  have hav := addViewer_ok st roomId sid username now room p hroom hstr hlt
  simp [onJoinRoom, getOrCreateRoom, hroom, hstr, hrid, hun, hav]

/-- Claim C9 (amended): the per-room chat log is capped at 100 messages
with the oldest evicted first — 150 accepted appends starting from an empty
log leave exactly the last 100 in oldest-first order — and each accepted
`addMessage` stores its message through that bounded push; however the chat
history delivered to a joining viewer is the room's entire stored log (up
to 100 messages) in chronological order, not the most recent 50, and the
delivery leaves the stored log unchanged. -/
theorem c9_chat_log_amended :
    (∀ msgs : List Message, msgs.length = 150 →
      List.foldl pushMessage [] msgs = msgs.drop 50) ∧
    (∀ (st : ServerState) (roomId sid username : String) (raw : List Char)
        (now : Nat) (room : Room) (st' : ServerState) (m : Message),
      st.rooms.get roomId = some room →
      addMessage st roomId sid username raw now = (st', .ok m) →
      (st'.rooms.get roomId).map Room.messages =
        some (pushMessage room.messages m)) ∧
    (∀ (st : ServerState) (sid roomId username : String) (now : Nat)
        (room : Room) (p : Streamer),
      roomId ≠ "" → username ≠ "" →
      st.rooms.get roomId = some room → room.streamer = some p →
      room.viewers.size < MAX_VIEWERS_PER_ROOM →
      Out.chatHistoryTo sid room.messages ∈
        (onJoinRoom st sid roomId username now).2 ∧
      ((onJoinRoom st sid roomId username now).1.rooms.get roomId).map
        Room.messages = some room.messages) := by
  refine ⟨?_, ?_, ?_⟩
  · intro msgs h150
    rw [foldl_pushMessage msgs [] (by simp [MAX_MESSAGES_PER_ROOM])]
    simp [capDrop, h150, MAX_MESSAGES_PER_ROOM]
  · intro st roomId sid username raw now room st' m hroom hrun
    rw [addMessage_eq st roomId sid username raw now room hroom] at hrun
    by_cases hc : now - (st.messageRateLimits.get sid).getD 0 <
        MESSAGE_RATE_LIMIT
    · rw [if_pos hc] at hrun
      have h2 := congrArg Prod.snd hrun
      simp at h2
    · rw [if_neg hc] at hrun
      by_cases hs : sanitizeMessage raw = []
      · rw [if_pos hs] at hrun
        have h2 := congrArg Prod.snd hrun
        simp at h2
      · rw [if_neg hs] at hrun
        have h1 := congrArg Prod.fst hrun
        have h2 := congrArg Prod.snd hrun
        simp only [Prod.fst, Prod.snd, AddMessageResult.ok.injEq] at h1 h2
        rw [← h1, ← h2]
        simp [JMap.get_set_self]
  · intro st sid roomId username now room p hrid hun hroom hstr hlt
    rw [onJoinRoom_viewer st sid roomId username now room p hrid hun hroom
      hstr hlt]
    constructor
    · simp
    · rw [addViewer_ok st roomId sid username now room p hroom hstr hlt]
      simp [JMap.get_set_self]

/-- Witness for C9's amended theorem at concrete inputs: 150 single-
character messages folded into an empty log leave messages 50..149, and
bob's join to the one-room state receives the full (empty) history. -/
theorem c9_chat_log_amended_witness :
    List.foldl pushMessage []
        ((List.range 150).map (fun i => ⟨"u", [ 'm' ], i, none, false⟩)) =
      ((List.range 150).map
        (fun i => (⟨"u", [ 'm' ], i, none, false⟩ : Message))).drop 50 ∧
    Out.chatHistoryTo "v" [] ∈ (onJoinRoom stOneRoom "v" "r" "bob" 7).2 :=
  ⟨c9_chat_log_amended.1 _ (by simp),
   (c9_chat_log_amended.2.2 stOneRoom "v" "r" "bob" 7
      ⟨some ⟨"s", "alice", 0⟩, [], [], 0, ⟨0, 0, 0⟩⟩ ⟨"s", "alice", 0⟩
      (by decide) (by decide) rfl rfl (by decide)).1⟩

/-- Counterexample to claim C9 as stated: a room holding 60 stored messages
delivers all 60 of them (not the most recent 50) as the chat history of a
joining viewer. -/
theorem c9_history_not_fifty_cex :
    chatHistoryLengths (onJoinRoom stSixtyMessages "v" "r" "bob" 50000).2 =
      [60] ∧ ¬(60 = 50) := by
  exact ⟨by decide, by decide⟩

-- ===========================================================================
-- Claim C10 — awaiting-stream join leaves no bindings
-- ===========================================================================

/-- Claim C10 (confirmed): joining an unknown room assigns the role
`awaiting-stream` and records the connection in neither the viewer set of
the freshly created (empty) room nor the reverse map; a subsequent
disconnect makes `removeUser` return null, emits no departure
notifications, and the empty room created by the join stays registered. -/
theorem c10_awaiting_stream (st : ServerState) (sid roomId username : String)
    (now now2 : Nat) (hroom : st.rooms.get roomId = none)
    (hmap : st.socketToRoom.get sid = none)
    (hrid : roomId ≠ "") (hun : username ≠ "") :
    onJoinRoom st sid roomId username now =
      ({ st with
          rooms := st.rooms.set roomId ⟨none, [], [], now, ⟨0, 0, 0⟩⟩ },
       [.roleAwaitingTo sid roomId]) ∧
    (onJoinRoom st sid roomId username now).1.socketToRoom.get sid = none ∧
    removeUser (onJoinRoom st sid roomId username now).1 sid =
      ((onJoinRoom st sid roomId username now).1, none) ∧
    onDisconnect (onJoinRoom st sid roomId username now).1 sid now2 =
      ((onJoinRoom st sid roomId username now).1, []) ∧
    (onDisconnect (onJoinRoom st sid roomId username now).1 sid
      now2).1.rooms.get roomId = some ⟨none, [], [], now, ⟨0, 0, 0⟩⟩ := by
  have h1 : onJoinRoom st sid roomId username now =
      ({ st with
          rooms := st.rooms.set roomId ⟨none, [], [], now, ⟨0, 0, 0⟩⟩ },
       [.roleAwaitingTo sid roomId]) := by
    simp [onJoinRoom, getOrCreateRoom, createRoom, hroom, hrid, hun]
  have h2 : removeUser (onJoinRoom st sid roomId username now).1 sid =
      ((onJoinRoom st sid roomId username now).1, none) := by
    rw [h1]
    simp [removeUser, hmap]
  refine ⟨h1, ?_, h2, ?_, ?_⟩
  · rw [h1]
    exact hmap
  · simp [onDisconnect, h2]
  · simp only [onDisconnect, h2]
    rw [h1]
    exact JMap.get_set_self st.rooms roomId _
/-- Witness for C10 at a concrete input: bob joins the unknown room `"r"`
of the empty initial state and is told to await the stream, with the fresh
empty room registered and no viewer or reverse-map binding. -/
theorem c10_awaiting_stream_witness :
    onJoinRoom initialState "v" "r" "bob" 5 =
      ({ initialState with
          rooms := initialState.rooms.set "r" ⟨none, [], [], 5, ⟨0, 0, 0⟩⟩ },
       [.roleAwaitingTo "v" "r"]) :=
  (c10_awaiting_stream initialState "v" "r" "bob" 5 9 rfl rfl
    (by decide) (by decide)).1
